import Mathlib

/-!
# Verification of the ticket-processing worker

Shallow embedding of the worker orchestration core of the ticket-processing
pipeline (`src/processor/worker.py` together with its schema collaborators in
`src/common/schemas.py` and the ML-stage entry points in
`src/processor/classifier.py`, `src/processor/embeddings.py`,
`src/processor/summarizer.py`).

Modelling conventions:
* JSON values (queue-message bodies and raw S3 object payloads) are modelled
  by the inductive `Json`.  JSON numbers are rationals (`ℚ`); machine floats
  produced by the external models are likewise modelled as rationals — every
  confidence constant appearing in the code (0, 0.5, 0.6, 0.7, 0.8, 0.9, 1.0,
  `min(score/3, 1)`) is exact.
* External collaborators (S3 get, the three ML models, the wall clock, and the
  success/failure of the two store writes) are oracles collected in `Oracles`.
  A `none`/`false` answer from an oracle models the corresponding call raising.
* Python exceptions become `Except UnitError` values; the error kinds mirror
  §7 of the design (parse / fetch / validation / enrichment / storage).
* The two stores are association lists keyed the way DynamoDB and S3 key them:
  the metadata table by `(ticket_id, created_at)`, the blob store by the S3
  object key.  A put replaces any existing entry with the same key, matching
  put_item / put_object upsert semantics.
-/

namespace TicketWorker

/-- A parsed JSON value, as produced by `json.loads`. -/
inductive Json where
  | null
  | bool (b : Bool)
  | num (q : ℚ)
  | str (s : String)
  | arr (xs : List Json)
  | obj (fields : List (String × Json))

/-- Unit-local error kinds (§7 of the design): parse, fetch, validation,
enrichment and storage errors.  All of them abort the unit and leave the
owning message unacknowledged. -/
inductive UnitError where
  | parse
  | fetch
  | validation
  | enrichment
  | storage
deriving Repr, DecidableEq

/-- Field lookup on a JSON object (`None` on anything that is not an object,
mirroring that only dicts have keys). -/
def Json.get? : Json → String → Option Json
  | .obj fs, k => fs.lookup k
  | _, _ => none

/-- Does `pat` occur as a contiguous run inside `text`? -/
def substrOccurs (pat text : List Char) : Bool :=
  (List.range (text.length + 1)).any (fun i => pat.isPrefixOf (text.drop i))

/-- Python `s in j` for a string `s`: key containment on dicts, element
containment on lists, substring test on strings, `TypeError` otherwise. -/
def pyContains (j : Json) (s : String) : Except UnitError Bool :=
  match j with
  | .obj fs => .ok (fs.any (fun p => p.1 == s))
  | .arr xs => .ok (xs.any (fun x => match x with | .str t => t == s | _ => false))
  | .str t => .ok (substrOccurs s.data t.data)
  | _ => .error .parse

/-- Python `j[k]` for a string key `k`: dict lookup (`KeyError` when absent),
`TypeError` on any non-dict. -/
def pyIndex (j : Json) (k : String) : Except UnitError Json :=
  match j with
  | .obj fs =>
    match fs.lookup k with
    | some v => .ok v
    | none => .error .parse
  | _ => .error .parse

/-- Python whitespace, the character class stripped by `str.strip()`. -/
def isPySpace (c : Char) : Bool :=
  c = ' ' || c = '\t' || c = '\n' || c = '\r' || c = '\x0b' || c = '\x0c'

/-- Python `str.strip()`. -/
def pyStrip (s : String) : String :=
  ⟨((s.data.dropWhile isPySpace).reverse.dropWhile isPySpace).reverse⟩

/-- Helper for `pySplitWs`: scan the characters, accumulating the current
word (reversed). -/
def splitWsAux : List Char → List Char → List String
  | [], acc => if acc.isEmpty then [] else [⟨acc.reverse⟩]
  | c :: cs, acc =>
    if isPySpace c then
      if acc.isEmpty then splitWsAux cs [] else ⟨acc.reverse⟩ :: splitWsAux cs []
    else splitWsAux cs (c :: acc)

/-- Python `str.split()` (split on whitespace runs, dropping empty pieces). -/
def pySplitWs (s : String) : List String := splitWsAux s.data []

/-- Python `str.lower()` (ASCII case folding, which covers the keyword
tables). -/
def pyLower (s : String) : String := ⟨s.data.map Char.toLower⟩

/-- Python `str.upper()` (ASCII case folding). -/
def pyUpper (s : String) : String := ⟨s.data.map Char.toUpper⟩

/-- Digit-string value accumulator for `strToInt?`. -/
def digitsValAux : List Char → Nat → Option Nat
  | [], n => some n
  | c :: cs, n => if c.isDigit then digitsValAux cs (n * 10 + (c.toNat - 48)) else none

/-- Integer parse of a decimal string (optional leading minus sign). -/
def strToInt? (s : String) : Option Int :=
  match s.data with
  | [] => none
  | '-' :: cs =>
    match cs with
    | [] => none
    | _ => (digitsValAux cs 0).map (fun n => -(n : Int))
  | cs => (digitsValAux cs 0).map (fun n => (n : Int))

/-- Python `s[:n]` on a string (character slicing). -/
def pyTake (n : Nat) (s : String) : String := ⟨s.data.take n⟩

/-- Python `str()` of a JSON-parsed value, as an f-string would interpolate
it.  The worker only ever formats these fields after schema validation, where
they are genuine strings; the composite and non-integral cases are
approximations that no reachable execution exercises. -/
def pyStr : Json → String
  | .null => "None"
  | .bool true => "True"
  | .bool false => "False"
  | .num q => if q.den = 1 then toString q.num else toString q
  | .str s => s
  | .arr _ => "[...]"
  | .obj _ => "\x7b...\x7d"

/-- Python `ticket.get(k, "")` followed by f-string interpolation: the empty
string when the key is absent, `str()` of the value otherwise; `AttributeError`
(modelled as an enrichment-stage error) when `ticket` is not a dict. -/
def pyGetStrD (j : Json) (k : String) : Except UnitError String :=
  match j with
  | .obj fs =>
    match fs.lookup k with
    | none => .ok ""
    | some v => .ok (pyStr v)
  | _ => .error .enrichment

/-! ## Schemas (`src/common/schemas.py`) -/

/-- Pydantic model `TicketMetadata`. -/
structure TicketMetadata where
  source : String
  language : String
  tags : List String
deriving Repr, DecidableEq

/-- Pydantic model `RawTicket`: the validated raw document. -/
structure RawTicket where
  ticket_id : String
  subject : String
  body : String
  priority : Option String
  created_at : Int
  customer_id : String
  metadata : TicketMetadata
deriving Repr, DecidableEq

/-- Required string field: present and a string, otherwise a validation
error. -/
def getStrField (fs : List (String × Json)) (k : String) : Except UnitError String :=
  match fs.lookup k with
  | some (.str s) => .ok s
  | _ => .error .validation

/-- Required int field (`created_at`): an integral number, or a numeric string
(pydantic lax coercion); anything else is a validation error. -/
def getIntField (fs : List (String × Json)) (k : String) : Except UnitError Int :=
  match fs.lookup k with
  | some (.num q) => if q.den = 1 then .ok q.num else .error .validation
  | some (.str s) =>
    match strToInt? s with
    | some n => .ok n
    | none => .error .validation
  | _ => .error .validation

/-- Field `priority: Optional[str] = None`: absent or `null` become `None`, a string
is kept, any other type is rejected. -/
def getPriorityField (fs : List (String × Json)) : Except UnitError (Option String) :=
  match fs.lookup "priority" with
  | none => .ok none
  | some .null => .ok none
  | some (.str s) => .ok (some s)
  | some _ => .error .validation

/-- Field `tags: List[str]` with default `[]`. -/
def getTagsField (fs : List (String × Json)) : Except UnitError (List String) :=
  match fs.lookup "tags" with
  | none => .ok []
  | some (.arr xs) =>
    xs.mapM (fun x => match x with | .str s => Except.ok s | _ => Except.error UnitError.validation)
  | some _ => .error .validation

/-- Field `language: str = "en"`. -/
def getLanguageField (fs : List (String × Json)) : Except UnitError String :=
  match fs.lookup "language" with
  | none => .ok "en"
  | some (.str s) => .ok s
  | some _ => .error .validation

/-- Validation of the `TicketMetadata` model: `source` required. -/
def validateMetadata : Json → Except UnitError TicketMetadata
  | .obj fs => do
    let source ← getStrField fs "source"
    let language ← getLanguageField fs
    let tags ← getTagsField fs
    return ⟨source, language, tags⟩
  | _ => .error .validation

/-- Field `metadata` with `default_factory=lambda: TicketMetadata(source="unknown")`. -/
def getMetadataField (fs : List (String × Json)) : Except UnitError TicketMetadata :=
  match fs.lookup "metadata" with
  | none => .ok ⟨"unknown", "en", []⟩
  | some j => validateMetadata j

/-- Validation `RawTicket(**raw_ticket)`: pydantic validation of the raw document.
Required: `ticket_id`, `subject`, `body` (strings), `created_at` (int),
`customer_id` (string); optional `priority` and `metadata`. -/
def validateRawTicket : Json → Except UnitError RawTicket
  | .obj fs =>
    match getStrField fs "ticket_id" with
    | .error e => .error e
    | .ok tid =>
      match getStrField fs "subject" with
      | .error e => .error e
      | .ok subject =>
        match getStrField fs "body" with
        | .error e => .error e
        | .ok body =>
          match getPriorityField fs with
          | .error e => .error e
          | .ok priority =>
            match getIntField fs "created_at" with
            | .error e => .error e
            | .ok created =>
              match getStrField fs "customer_id" with
              | .error e => .error e
              | .ok cust =>
                match getMetadataField fs with
                | .error e => .error e
                | .ok md => .ok ⟨tid, subject, body, priority, created, cust, md⟩
  | _ => .error .validation

/-- Pydantic model `EnrichmentData`.  The pydantic field constraints
(`ge=0.0, le=1.0` on the three confidences) are enforced by the smart
constructor `mkEnrichmentData` below. -/
structure EnrichmentData where
  embedding : List ℚ
  intent : String
  intent_confidence : ℚ
  urgency : String
  urgency_confidence : ℚ
  sentiment : String
  sentiment_confidence : ℚ
  summary : String
  processed_at : String
  model_version : String
deriving Repr, DecidableEq

/-- Constructing an `EnrichmentData(...)` raises a pydantic `ValidationError`
unless all three confidence scores lie in `[0, 1]`. -/
def mkEnrichmentData (embedding : List ℚ) (intent : String) (ic : ℚ)
    (urgency : String) (uc : ℚ) (sentiment : String) (sc : ℚ)
    (summary processed_at : String) : Except UnitError EnrichmentData :=
  if 0 ≤ ic ∧ ic ≤ 1 ∧ 0 ≤ uc ∧ uc ≤ 1 ∧ 0 ≤ sc ∧ sc ≤ 1 then
    .ok ⟨embedding, intent, ic, urgency, uc, sentiment, sc, summary, processed_at, "1.0.0"⟩
  else
    .error .enrichment

/-- Pydantic model `EnrichedTicket`: raw fields flattened plus enrichment. -/
structure EnrichedTicket where
  ticket_id : String
  subject : String
  body : String
  priority : Option String
  created_at : Int
  customer_id : String
  metadata : TicketMetadata
  enrichment : EnrichmentData
deriving Repr, DecidableEq

/-- Constructor `EnrichedTicket.from_raw`. -/
def EnrichedTicket.from_raw (raw : RawTicket) (e : EnrichmentData) : EnrichedTicket :=
  ⟨raw.ticket_id, raw.subject, raw.body, raw.priority, raw.created_at,
   raw.customer_id, raw.metadata, e⟩

/-- Pydantic model `DynamoDBTicket`: the structured projection, without the
embedding. -/
structure DynamoDBTicket where
  ticket_id : String
  created_at : Int
  subject : String
  customer_id : String
  intent : String
  urgency : String
  sentiment : String
  summary : String
  processed_at : String
  s3_key : String
deriving Repr, DecidableEq

/-- Constructor `DynamoDBTicket.from_enriched`. -/
def DynamoDBTicket.from_enriched (t : EnrichedTicket) : DynamoDBTicket :=
  { ticket_id := t.ticket_id
    created_at := t.created_at
    subject := t.subject
    customer_id := t.customer_id
    intent := t.enrichment.intent
    urgency := t.enrichment.urgency
    sentiment := t.enrichment.sentiment
    summary := t.enrichment.summary
    processed_at := t.enrichment.processed_at
    s3_key := t.ticket_id ++ ".json" }

/-! ## External collaborators -/

/-- Oracles for the external collaborators: the raw object store read, the
three ML models, the wall clock, and whether each store write succeeds.
A `none` (or `false`) answer models the corresponding call raising. -/
structure Oracles where
  /-- Oracle for `s3.get_object` + UTF-8 decode + `json.loads` of the raw document;
  `none` covers a missing object, an unreadable body, or undecodable JSON. -/
  fetchObj : String → String → Option Json
  /-- Oracle for `model.encode` of the embedding model (`sentence-transformers`). -/
  encode : String → Option (List ℚ)
  /-- the DistilBERT sentiment pipeline: `(label, score)` or an exception. -/
  sentimentModel : String → Option (String × ℚ)
  /-- the DistilBART summarization pipeline: summary text or an exception. -/
  summarizerModel : String → Option String
  /-- Oracle for `datetime.utcnow().isoformat()`. -/
  now : String
  /-- does `table.put_item` succeed for this item? -/
  putItemOk : DynamoDBTicket → Bool
  /-- does `s3.put_object` succeed for this key? -/
  putObjectOk : String → Bool

/-! ## Classifier (`src/processor/classifier.py`)

Keyword matching uses `re.findall`/`re.search` with the pattern
`r"\b" + re.escape(keyword) + r"\b"`; the keywords are plain words (letters,
digits, spaces, a few apostrophes), so `re.escape` is the identity on them and
the pattern is the literal keyword guarded by word boundaries. -/

/-- A regex word character (`\w`): letter, digit or underscore. -/
def isWordChar (c : Char) : Bool := c.isAlphanum || c = '_'

/-- Word-character test on an optional character; a string edge counts as a
non-word character. -/
def optIsWord : Option Char → Bool
  | some c => isWordChar c
  | none => false

/-- Does the pattern `\b kw \b` match `text` at position `i`?  A `\b` matches
where exactly one of the two neighbouring positions holds a word character. -/
def matchesAt (text kw : List Char) (i : Nat) : Bool :=
  kw.isPrefixOf (text.drop i) &&
  (optIsWord (match i with | 0 => none | Nat.succ j => text.get? j) != optIsWord kw.head?) &&
  (optIsWord kw.getLast? != optIsWord (text.get? (i + kw.length)))

/-- Search `re.search(r"\b kw \b", text)`: a match at some position. -/
def reSearch (text kw : List Char) : Bool :=
  (List.range (text.length + 1)).any (matchesAt text kw)

/-- Scanner for `len(re.findall(r"\b kw \b", text))`: leftmost,
non-overlapping matches, resuming after each match.  The fuel bounds the scan
by the text length; each step advances the position, so the fuel never runs
out before the scan is complete. -/
def countMatchesAux (text kw : List Char) : Nat → Nat → Nat
  | 0, _ => 0
  | fuel + 1, i =>
    if text.length < i then 0
    else if matchesAt text kw i then 1 + countMatchesAux text kw fuel (i + max kw.length 1)
    else countMatchesAux text kw fuel (i + 1)

/-- Count `len(re.findall(r"\b kw \b", text))`. -/
def countMatches (text kw : List Char) : Nat :=
  countMatchesAux text kw (text.length + 2) 0

/-- Table `INTENT_KEYWORDS`, in dict insertion order. -/
def INTENT_KEYWORDS : List (String × List String) :=
  [ ("login_issue",
     ["login", "log in", "sign in", "signin", "password", "credentials",
      "authentication", "auth", "access denied", "locked out", "2fa", "mfa"]),
    ("payment_issue",
     ["payment", "charge", "charged", "refund", "billing", "invoice",
      "transaction", "credit card", "debit", "declined", "failed payment"]),
    ("bug_report",
     ["bug", "error", "crash", "broken", "not working", "doesn\x27t work",
      "issue", "problem", "glitch", "freeze", "hang", "exception"]),
    ("feature_request",
     ["feature", "request", "enhancement", "add", "support for", "would love",
      "suggestion", "improve", "could you add", "wish"]),
    ("account_management",
     ["account", "profile", "settings", "update", "change", "delete",
      "deactivate", "email address", "phone number", "password reset"]),
    ("performance_issue",
     ["slow", "performance", "loading", "timeout", "lag", "delay",
      "hanging", "speed", "takes too long"]),
    ("security_concern",
     ["security", "hack", "hacked", "unauthorized", "breach", "suspicious",
      "fraud", "scam", "phishing", "malware", "virus"]),
    ("data_request",
     ["data", "export", "download", "gdpr", "privacy", "information",
      "personal data", "data protection"]),
    ("integration_help",
     ["integration", "api", "webhook", "oauth", "sdk", "plugin",
      "third party", "connect", "sync"]) ]

/-- Table `URGENCY_KEYWORDS`, in dict insertion order (checked highest first). -/
def URGENCY_KEYWORDS : List (String × List String) :=
  [ ("critical",
     ["urgent", "critical", "emergency", "asap", "immediately", "right now",
      "down", "outage", "broken", "can\x27t access", "unable to", "blocked",
      "losing money", "production", "hacked", "security breach"]),
    ("high",
     ["important", "need help", "problem", "issue", "can\x27t", "cannot",
      "doesn\x27t work", "not working", "error", "failing", "soon",
      "business impact"]),
    ("medium",
     ["question", "how to", "how do i", "help", "assistance",
      "wondering", "clarify", "explain"]),
    ("low",
     ["suggestion", "feature", "enhancement", "when possible",
      "sometime", "eventually", "minor", "nice to have"]) ]

/-- The confidence table inside `classify_urgency`'s keyword branch. -/
def urgencyKeywordConfidence (lvl : String) : ℚ :=
  if lvl = "critical" then mkRat 9 10
  else if lvl = "high" then mkRat 4 5
  else mkRat 7 10

/-- Python `max(intent_scores, key=intent_scores.get)` with the score looked
up afterwards: the first entry (in insertion order) holding the maximal
score. -/
def firstArgmax : List (String × Nat) → Option (String × Nat)
  | [] => none
  | p :: ps => some (ps.foldl (fun best q => if best.2 < q.2 then q else best) p)

/-- Function `classify_intent`: keyword scoring over the lowered subject-body text. -/
def classify_intent (ticket : Json) : Except UnitError (String × ℚ) := do
  let subject ← pyGetStrD ticket "subject"
  let body ← pyGetStrD ticket "body"
  let text := pyLower (subject ++ " " ++ body)
  if pyStrip text = "" then
    return ("general_inquiry", 0)
  let scores := INTENT_KEYWORDS.map (fun p =>
    (p.1, p.2.foldl (fun acc kw => acc + countMatches text.data kw.data) 0))
  let positive := scores.filter (fun p => 0 < p.2)
  match firstArgmax positive with
  | none => return ("general_inquiry", mkRat 1 2)
  | some (intent, score) => return (intent, min (mkRat (score : Int) 3) 1)

/-- First urgency level (highest first) with a matching keyword, with its
confidence. -/
def searchUrgency (text : List Char) : Option (String × ℚ) :=
  URGENCY_KEYWORDS.findSome? (fun p =>
    if p.2.any (fun kw => reSearch text kw.data) then
      some (p.1, urgencyKeywordConfidence p.1)
    else none)

/-- Step one of `classify_urgency`: explicit `priority` field first (confidence 1.0), then
keyword search (0.7–0.9), then the default `("medium", 0.6)`.
`ticket.get("priority", "")` on a present non-string value (e.g. an explicit
JSON `null`) makes the subsequent `.lower()` raise `AttributeError`. -/
def getPriorityLower (ticket : Json) : Except UnitError String :=
  match ticket with
  | .obj fs =>
    match fs.lookup "priority" with
    | none => .ok ""
    | some (.str s) => .ok (pyLower s)
    | some _ => .error .enrichment
  | _ => .error .enrichment

/-- Keyword phase of `classify_urgency`: empty text and no-hit text default
to `("medium", 0.6)`. -/
def classify_urgency_keywords (text : String) : String × ℚ :=
  if pyStrip text = "" then ("medium", mkRat 3 5)
  else
    match searchUrgency text.data with
    | some r => r
    | none => ("medium", mkRat 3 5)

/-- Function `classify_urgency`: explicit priority first, then keywords,
then the default. -/
def classify_urgency (ticket : Json) : Except UnitError (String × ℚ) :=
  match getPriorityLower ticket with
  | .error e => .error e
  | .ok p =>
    if p = "critical" ∨ p = "high" ∨ p = "medium" ∨ p = "low" then .ok (p, 1)
    else
      match pyGetStrD ticket "subject" with
      | .error e => .error e
      | .ok subject =>
        match pyGetStrD ticket "body" with
        | .error e => .error e
        | .ok body => .ok (classify_urgency_keywords (pyLower (subject ++ " " ++ body)))

/-- Combination `f"{subject}. {body}" if subject and body else subject or body`
(Python string truthiness: non-empty). -/
def combineDotted (subject body : String) : String :=
  if subject ≠ "" ∧ body ≠ "" then subject ++ ". " ++ body
  else if subject ≠ "" then subject
  else body

/-- Truncation `" ".join(words[:n]) if len(words) > n else text` with `words = text.split()`. -/
def truncateWords (n : Nat) (text : String) : String :=
  let words := pySplitWs text
  if n < words.length then String.intercalate " " (words.take n) else text

/-- Function `classify_sentiment`: DistilBERT oracle with the near-0.5 band mapped to
`NEUTRAL`; model exceptions are caught and also yield `("NEUTRAL", 0.5)`. -/
def classify_sentiment (o : Oracles) (ticket : Json) : Except UnitError (String × ℚ) := do
  let subject ← pyGetStrD ticket "subject"
  let body ← pyGetStrD ticket "body"
  let text := combineDotted subject body
  if pyStrip text = "" then
    return ("NEUTRAL", mkRat 1 2)
  let text := truncateWords 400 text
  match o.sentimentModel text with
  | none => return ("NEUTRAL", mkRat 1 2)
  | some (label, score) =>
    if mkRat 45 100 ≤ score ∧ score ≤ mkRat 55 100 then
      return ("NEUTRAL", mkRat 1 2)
    else
      return (pyUpper label, score)

/-- The record returned by `get_classification_summary`. -/
structure ClassificationSummary where
  intent : String
  intent_confidence : ℚ
  urgency : String
  urgency_confidence : ℚ
  sentiment : String
  sentiment_confidence : ℚ
deriving Repr, DecidableEq

/-- Function `get_classification_summary`: all three classifiers. -/
def get_classification_summary (o : Oracles) (ticket : Json) :
    Except UnitError ClassificationSummary :=
  match classify_intent ticket with
  | .error e => .error e
  | .ok (i, ic) =>
    match classify_urgency ticket with
    | .error e => .error e
    | .ok (u, uc) =>
      match classify_sentiment o ticket with
      | .error e => .error e
      | .ok (s, sc) => .ok ⟨i, ic, u, uc, s, sc⟩

/-! ## Embeddings (`src/processor/embeddings.py`) -/

/-- The text-combination step of `generate_ticket_embedding`. -/
def embedText (ticket : Json) : Except UnitError String := do
  let subject ← pyGetStrD ticket "subject"
  let body ← pyGetStrD ticket "body"
  return combineDotted subject body

/-- Function `generate_ticket_embedding`: the 384-dim zero vector when the combined
text is empty after `strip()`, otherwise the embedding model's output
(re-raising model exceptions). -/
def generate_ticket_embedding (o : Oracles) (ticket : Json) : Except UnitError (List ℚ) :=
  match embedText ticket with
  | .error e => .error e
  | .ok text =>
    if pyStrip text = "" then .ok (List.replicate 384 0)
    else
      match o.encode text with
      | some v => .ok v
      | none => .error .enrichment

/-! ## Summarizer (`src/processor/summarizer.py`)

The `max_length`/`min_length` parameters are only forwarded to the external
model and are folded into the summarizer oracle. -/

/-- Function `generate_summary`. -/
def generate_summary (o : Oracles) (ticket : Json) : Except UnitError String := do
  let subject ← pyGetStrD ticket "subject"
  let body ← pyGetStrD ticket "body"
  if subject = "" ∧ body = "" then
    return ""
  if body = "" then
    return subject
  if (pySplitWs body).length < 20 then
    return (if subject ≠ "" then subject else pyTake 100 body)
  let text := if subject ≠ "" then subject ++ ". " ++ body else body
  let text := truncateWords 700 text
  match o.summarizerModel text with
  | some raw =>
    let summary := pyStrip raw
    match summary.data.getLast? with
    | some c =>
      if c = '.' ∨ c = '!' ∨ c = '?' then return summary else return (summary ++ ".")
    | none => return summary
  | none =>
    return (if subject ≠ "" then pyTake 100 subject else pyTake 100 body)

/-! ## The worker pipeline (`src/processor/worker.py`) -/

/-- Method `TicketProcessor.process_ticket`: validate, embed, classify, summarize,
package.  Any exception aborts the unit. -/
def process_ticket (o : Oracles) (raw : Json) : Except UnitError EnrichedTicket :=
  match validateRawTicket raw with
  | .error e => .error e
  | .ok ticket =>
    match generate_ticket_embedding o raw with
    | .error e => .error e
    | .ok embedding =>
      match get_classification_summary o raw with
      | .error e => .error e
      | .ok c =>
        match generate_summary o raw with
        | .error e => .error e
        | .ok summary =>
          match mkEnrichmentData embedding c.intent c.intent_confidence c.urgency
              c.urgency_confidence c.sentiment c.sentiment_confidence summary o.now with
          | .error e => .error e
          | .ok enrichment => .ok (EnrichedTicket.from_raw ticket enrichment)

/-! ## Dual-store writer (`TicketProcessor.store_results`) -/

/-- The two persistent stores: the DynamoDB table keyed by
`(ticket_id, created_at)` and the enriched-blob S3 bucket keyed by object
key.  Both behave as key→value maps (upsert). -/
structure Store where
  table : List ((String × Int) × DynamoDBTicket)
  blobs : List (String × EnrichedTicket)
deriving Repr, DecidableEq

/-- The empty store. -/
def Store.empty : Store := ⟨[], []⟩

/-- Write `table.put_item`: upsert keyed by `(ticket_id, created_at)`. -/
def Store.putItem (s : Store) (it : DynamoDBTicket) : Store :=
  { s with table :=
      ((it.ticket_id, it.created_at), it) ::
        s.table.filter (fun e => !(e.1 == (it.ticket_id, it.created_at))) }

/-- Write `s3.put_object` on the enriched bucket: upsert keyed by object key. -/
def Store.putBlob (s : Store) (k : String) (t : EnrichedTicket) : Store :=
  { s with blobs := (k, t) :: s.blobs.filter (fun e => !(e.1 == k)) }

/-- One write of `store_results`, in a form that records which write it is. -/
inductive WriteEff where
  | putItem (item : DynamoDBTicket)
  | putObject (key : String) (content : EnrichedTicket)
deriving Repr, DecidableEq

/-- The write sequence of `store_results`, in program order: first
`table.put_item` of the projection, then `s3.put_object` of the full blob
under `f"{ticket_id}.json"`. -/
def store_results_effects (t : EnrichedTicket) : List WriteEff :=
  [ .putItem (DynamoDBTicket.from_enriched t),
    .putObject (t.ticket_id ++ ".json") t ]

/-- Apply one write to the stores. -/
def applyEff (s : Store) : WriteEff → Store
  | .putItem it => s.putItem it
  | .putObject k t => s.putBlob k t

/-- Apply a sequence of writes. -/
def applyEffs (s : Store) (effs : List WriteEff) : Store := effs.foldl applyEff s

/-- Method `store_results` interrupted after its first `n` operations have been
applied (a crash / failure between the writes). -/
def crashAfter (s : Store) (t : EnrichedTicket) (n : Nat) : Store :=
  applyEffs s ((store_results_effects t).take n)

/-- Method `store_results` with per-write success oracles: `put_item` first, then
`put_object`; a failing write raises, leaving any earlier write in place.
Returns the resulting stores and whether the whole call succeeded. -/
def store_results (o : Oracles) (s : Store) (t : EnrichedTicket) : Store × Bool :=
  let item := DynamoDBTicket.from_enriched t
  if o.putItemOk item then
    let s1 := s.putItem item
    if o.putObjectOk (t.ticket_id ++ ".json") then
      (s1.putBlob (t.ticket_id ++ ".json") t, true)
    else (s1, false)
  else (s, false)

/-! ## Poll loop (`TicketProcessor.poll_and_process`) -/

/-- Fetch + process + store of one `(bucket, key)` reference, as executed in
the body of the record loop.  Non-string bucket/key values make the boto3
call raise (parameter validation), modelled as the fetch failing. -/
def processUnit (o : Oracles) (s : Store) (bucketJ keyJ : Json) : Store × Option UnitError :=
  match bucketJ, keyJ with
  | .str b, .str k =>
    match o.fetchObj b k with
    | none => (s, some .fetch)
    | some raw =>
      match process_ticket o raw with
      | .error e => (s, some e)
      | .ok t =>
        let (s', ok) := store_results o s t
        (s', if ok then none else some .storage)
  | _, _ => (s, some .fetch)

/-- Extraction of `(bucket, key)` from one entry of `body["Records"]`:
the `record["s3"]` shape when present, otherwise the configured raw bucket
with `record.get("key", record.get("Key"))` (`None` when absent). -/
def parseRecord (rawBucket : String) (r : Json) : Except UnitError (Json × Json) := do
  let hasS3 ← pyContains r "s3"
  if hasS3 then
    let s3 ← pyIndex r "s3"
    let bucketObj ← pyIndex s3 "bucket"
    let name ← pyIndex bucketObj "name"
    let objObj ← pyIndex s3 "object"
    let key ← pyIndex objObj "key"
    return (name, key)
  else
    match r with
    | .obj fs =>
      return (.str rawBucket, (fs.lookup "key").getD ((fs.lookup "Key").getD .null))
    | _ => .error .parse

/-- The record loop: parse each record, fetch/process/store its unit, count
`tickets_processed` per stored unit; the first exception aborts the loop.
Returns the stores, the final counter, and the aborting error if any. -/
def processRecords (o : Oracles) (rawBucket : String) :
    Store → Nat → List Json → Store × Nat × Option UnitError
  | s, n, [] => (s, n, none)
  | s, n, r :: rs =>
    match parseRecord rawBucket r with
    | .error e => (s, n, some e)
    | .ok (bj, kj) =>
      match processUnit o s bj kj with
      | (s', some e) => (s', n, some e)
      | (s', none) => processRecords o rawBucket s' (n + 1) rs

/-- Outcome of handling one SQS message inside the `for message in messages`
loop: the stores afterwards, the increments to `tickets_processed` and
`tickets_failed`, and whether the message was deleted (acknowledged). -/
structure MsgResult where
  store : Store
  processedDelta : Nat
  failedDelta : Nat
  deleted : Bool
deriving Repr, DecidableEq

/-- Handling of one message: `json.loads` (`none` models a body that is not
valid JSON), the `"Records" in body` test, the record loop, and
`delete_message` only when no exception occurred.  A body without the
`Records` shape runs an empty loop and is still deleted. -/
def handleMessage (o : Oracles) (rawBucket : String) (s : Store) (body : Option Json) :
    MsgResult :=
  match body with
  | none => ⟨s, 0, 1, false⟩
  | some j =>
    match pyContains j "Records" with
    | .error _ => ⟨s, 0, 1, false⟩
    | .ok false => ⟨s, 0, 0, true⟩
    | .ok true =>
      match pyIndex j "Records" with
      | .error _ => ⟨s, 0, 1, false⟩
      | .ok (.arr rs) =>
        match processRecords o rawBucket s 0 rs with
        | (s', n, none) => ⟨s', n, 0, true⟩
        | (s', n, some _) => ⟨s', n, 1, false⟩
      | .ok _ => ⟨s, 0, 1, false⟩

/-- One poll cycle over a received batch: messages handled in order, each in
its own try/except; stats accumulate; the deletion flags are returned in
batch order. -/
def processBatch (o : Oracles) (rawBucket : String) (s : Store) :
    List (Option Json) → Store × Nat × Nat × List Bool
  | [] => (s, 0, 0, [])
  | m :: ms =>
    let r := handleMessage o rawBucket s m
    let (s', p, f, ds) := processBatch o rawBucket r.store ms
    (s', r.processedDelta + p, r.failedDelta + f, r.deleted :: ds)

/-! ## Declarative views used by the theorems -/

/-- The Notification-Parser view of a message: the ordered `(bucket, key)`
references it encodes, or a parse error.  (The worker interleaves this
parsing with processing; this function is the pure-parse view.) -/
def parseRecordList (rawBucket : String) : List Json → Except UnitError (List (Json × Json))
  | [] => .ok []
  | r :: rs =>
    match parseRecord rawBucket r with
    | .error e => .error e
    | .ok u =>
      match parseRecordList rawBucket rs with
      | .error e => .error e
      | .ok us => .ok (u :: us)

def parseUnits (rawBucket : String) (body : Option Json) :
    Except UnitError (List (Json × Json)) :=
  match body with
  | none => .error .parse
  | some j =>
    match pyContains j "Records" with
    | .error e => .error e
    | .ok false => .ok []
    | .ok true =>
      match pyIndex j "Records" with
      | .error e => .error e
      | .ok (.arr rs) => parseRecordList rawBucket rs
      | .ok _ => .error .parse

/-- Would processing this unit end in durable writes to both stores?  The
outcome depends only on the oracles, not on the current store contents. -/
def unitSucceeds (o : Oracles) (u : Json × Json) : Bool :=
  match u with
  | (.str b, .str k) =>
    match o.fetchObj b k with
    | none => false
    | some raw =>
      match process_ticket o raw with
      | .error _ => false
      | .ok t => o.putItemOk (DynamoDBTicket.from_enriched t) &&
          o.putObjectOk (t.ticket_id ++ ".json")
  | _ => false

/-- Number of records of the list that get durably stored by the record loop:
the length of the longest prefix of parse-ok, fully-succeeding records. -/
def succCount (o : Oracles) (rawBucket : String) : List Json → Nat
  | [] => 0
  | r :: rs =>
    match parseRecord rawBucket r with
    | .error _ => 0
    | .ok u => if unitSucceeds o u then succCount o rawBucket rs + 1 else 0

/-- Number of units of a message that get durably stored when it is handled. -/
def storedCount (o : Oracles) (rawBucket : String) : Option Json → Nat
  | none => 0
  | some j =>
    match pyContains j "Records" with
    | .ok true =>
      match pyIndex j "Records" with
      | .ok (.arr rs) => succCount o rawBucket rs
      | _ => 0
    | _ => 0

/-- Does handling the message succeed as a whole: the body parses, and every
encoded unit is processed and durably written? -/
def msgSucceeds (o : Oracles) (rawBucket : String) (body : Option Json) : Bool :=
  match parseUnits rawBucket body with
  | .error _ => false
  | .ok us => us.all (unitSucceeds o)

/-- Does one record parse to a unit whose processing fully succeeds? -/
def recordOk (o : Oracles) (rawBucket : String) (r : Json) : Bool :=
  match parseRecord rawBucket r with
  | .ok u => unitSucceeds o u
  | .error _ => false

/-- Is a required string field of the raw document absent or of the wrong
type?  (Spec-side formalization of "absent or of the wrong type" for the
string-valued required fields.) -/
def strFieldBad (fs : List (String × Json)) (k : String) : Bool :=
  match fs.lookup k with
  | some (.str _) => false
  | _ => true

/-- Is the required `created_at` field absent, or of a type that cannot be an
integer (also under pydantic's lax numeric-string coercion)? -/
def createdAtBad (fs : List (String × Json)) : Bool :=
  match fs.lookup "created_at" with
  | some (.num q) => q.den != 1
  | some (.str s) => (strToInt? s).isNone
  | some _ => true
  | none => true

/-! ## Concrete fixtures for counterexamples and witnesses -/

/-- A minimal valid raw document (cf. the example scenario in §8 of the
design, shrunk to keep evaluation small). -/
def sampleRawJson : Json :=
  Json.obj [("ticket_id", Json.str "T1"), ("subject", Json.str "a"),
    ("body", Json.str ""), ("created_at", Json.num 0), ("customer_id", Json.str "C1")]

/-- A raw document missing the required `customer_id` (the §8 schema-validation
scenario). -/
def badRawJson : Json :=
  Json.obj [("ticket_id", Json.str "T1"), ("subject", Json.str "a"),
    ("body", Json.str ""), ("created_at", Json.num 0)]

/-- A concrete oracle assignment: the raw bucket holds `sampleRawJson` under
`g.json` and `badRawJson` under `bad.json`; the models answer deterministically
and both store writes succeed. -/
def sampleOracle : Oracles :=
  { fetchObj := fun b k =>
      if b = "tickets-raw" && k = "g.json" then some sampleRawJson
      else if b = "tickets-raw" && k = "bad.json" then some badRawJson
      else none
    encode := fun _ => some [5]
    sentimentModel := fun _ => some ("POSITIVE", 1)
    summarizerModel := fun _ => none
    now := "t"
    putItemOk := fun _ => true
    putObjectOk := fun _ => true }

/-- An oracle on which every external call fails. -/
def failingOracle : Oracles :=
  { fetchObj := fun _ _ => none
    encode := fun _ => none
    sentimentModel := fun _ => none
    summarizerModel := fun _ => none
    now := ""
    putItemOk := fun _ => false
    putObjectOk := fun _ => false }

/-- The enriched ticket that `process_ticket sampleOracle sampleRawJson`
produces. -/
def t0 : EnrichedTicket :=
  ⟨"T1", "a", "", none, 0, "C1", ⟨"unknown", "en", []⟩,
   ⟨[5], "general_inquiry", mkRat 1 2, "medium", mkRat 3 5, "POSITIVE", 1, "a", "t", "1.0.0"⟩⟩

/-- A storage-event record pointing at `g.json` in the raw bucket. -/
def goodRec : Json :=
  Json.obj [("s3", Json.obj [("bucket", Json.obj [("name", Json.str "tickets-raw")]),
    ("object", Json.obj [("key", Json.str "g.json")])])]

/-- An unparsable storage-event record: the `s3` entry has no bucket name. -/
def badRec : Json := Json.obj [("s3", Json.obj [])]

/-! ## Lemmas about the dual-store writer -/

/-- Method `store_results` succeeds exactly when both writes succeed. -/
theorem store_results_snd (o : Oracles) (s : Store) (t : EnrichedTicket) :
    (store_results o s t).2 =
      (o.putItemOk (DynamoDBTicket.from_enriched t) && o.putObjectOk (t.ticket_id ++ ".json")) := by
  unfold store_results
  by_cases h1 : o.putItemOk (DynamoDBTicket.from_enriched t) <;>
    by_cases h2 : o.putObjectOk (t.ticket_id ++ ".json") <;>
    simp [h1, h2]

/-! ## Lemmas about unit processing -/

/-- The success or failure of processing one unit is independent of the
current store contents: it is `unitSucceeds`. -/
theorem processUnit_snd_none_iff (o : Oracles) (s : Store) (bj kj : Json) :
    (processUnit o s bj kj).2 = none ↔ unitSucceeds o (bj, kj) = true := by
  unfold processUnit unitSucceeds
  cases bj <;> cases kj <;> simp
  case str.str b k =>
    cases hf : o.fetchObj b k with
    | none => simp
    | some raw =>
      cases hp : process_ticket o raw with
      | error e => simp [hp]
      | ok t =>
        simp only [hp, store_results_snd]
        by_cases h1 : o.putItemOk (DynamoDBTicket.from_enriched t) <;>
          by_cases h2 : o.putObjectOk (t.ticket_id ++ ".json") <;>
          simp [h1, h2, store_results_snd]

/-! ## Lemmas about the record loop -/

/-- The `tickets_processed` increment of the record loop counts exactly the
durably stored units. -/
theorem processRecords_count (o : Oracles) (rb : String) :
    ∀ (rs : List Json) (s : Store) (n : Nat),
      (processRecords o rb s n rs).2.1 = n + succCount o rb rs := by
  intro rs
  induction rs with
  | nil => intro s n; simp [processRecords, succCount]
  | cons r rs ih =>
    intro s n
    unfold processRecords succCount
    cases hpr : parseRecord rb r with
    | error e => simp
    | ok u =>
      obtain ⟨bj, kj⟩ := u
      rcases hu : processUnit o s bj kj with ⟨s', e⟩
      cases e with
      | none =>
        have hsucc : unitSucceeds o (bj, kj) = true := by
          rw [← processUnit_snd_none_iff o s bj kj, hu]
        simp only [hu, hsucc, if_pos]
        rw [ih s' (n + 1)]
        omega
      | some err =>
        have hfail : unitSucceeds o (bj, kj) = false := by
          rw [← Bool.not_eq_true, ← processUnit_snd_none_iff o s bj kj, hu]
          simp
        simp [hu, hfail]

/-- The record loop completes without an exception exactly when every record
parses and its unit is durably stored. -/
theorem processRecords_err_iff (o : Oracles) (rb : String) :
    ∀ (rs : List Json) (s : Store) (n : Nat),
      (processRecords o rb s n rs).2.2 = none ↔ rs.all (recordOk o rb) = true := by
  intro rs
  induction rs with
  | nil => intro s n; simp [processRecords]
  | cons r rs ih =>
    intro s n
    unfold processRecords
    cases hpr : parseRecord rb r with
    | error e =>
      have hrok : recordOk o rb r = false := by unfold recordOk; rw [hpr]
      simp [List.all_cons, hrok]
    | ok u =>
      obtain ⟨bj, kj⟩ := u
      rcases hu : processUnit o s bj kj with ⟨s', e⟩
      cases e with
      | none =>
        have hsucc : unitSucceeds o (bj, kj) = true := by
          rw [← processUnit_snd_none_iff o s bj kj, hu]
        have hrok : recordOk o rb r = true := by unfold recordOk; rw [hpr]; exact hsucc
        rw [List.all_cons, hrok, Bool.true_and]
        simp only [hu]
        exact ih s' (n + 1)
      | some err =>
        have hfail : unitSucceeds o (bj, kj) = false := by
          rw [← Bool.not_eq_true, ← processUnit_snd_none_iff o s bj kj, hu]
          simp
        have hrok : recordOk o rb r = false := by unfold recordOk; rw [hpr]; exact hfail
        simp only [hu]
        simp [List.all_cons, hrok]

/-- The pure-parse view agrees with per-record success: parsing the whole
record list yields units that all succeed iff every record parses and its
unit succeeds. -/
theorem parseList_all_iff (o : Oracles) (rb : String) :
    ∀ rs : List Json,
      (∃ us, parseRecordList rb rs = Except.ok us ∧ us.all (unitSucceeds o) = true) ↔
        rs.all (recordOk o rb) = true := by
  intro rs
  induction rs with
  | nil => exact ⟨fun _ => rfl, fun _ => ⟨[], rfl, rfl⟩⟩
  | cons r rs ih =>
    unfold parseRecordList
    rw [List.all_cons]
    cases hpr : parseRecord rb r with
    | error e =>
      have hrok : recordOk o rb r = false := by unfold recordOk; rw [hpr]
      constructor
      · rintro ⟨us, hok, _⟩; cases hok
      · intro h
        rw [Bool.and_eq_true, hrok] at h
        exact absurd h.1 (by simp)
    | ok u =>
      have hrok : recordOk o rb r = unitSucceeds o u := by unfold recordOk; rw [hpr]
      rw [hrok]
      cases hrest : parseRecordList rb rs with
      | error e =>
        constructor
        · rintro ⟨us, hok, _⟩; cases hok
        · intro h
          rw [Bool.and_eq_true] at h
          obtain ⟨us', h1, _⟩ := ih.mpr h.2
          rw [hrest] at h1
          cases h1
      | ok us' =>
        constructor
        · rintro ⟨us, hok, hall⟩
          cases hok
          rw [List.all_cons, Bool.and_eq_true] at hall
          rw [hall.1, Bool.true_and]
          exact ih.mp ⟨us', hrest, hall.2⟩
        · intro h
          rw [Bool.and_eq_true] at h
          obtain ⟨us'', h1, h2⟩ := ih.mpr h.2
          rw [hrest] at h1
          injection h1 with h1
          subst h1
          refine ⟨u :: us', rfl, ?_⟩
          rw [List.all_cons, h.1, h2, Bool.and_self]

/-! ## Lemmas about message handling -/

/-- A message is deleted exactly when its handling succeeds as a whole; in
particular the outcome is independent of the store contents. -/
theorem handleMessage_deleted (o : Oracles) (rb : String) (s : Store) (body : Option Json) :
    (handleMessage o rb s body).deleted = msgSucceeds o rb body := by
  cases body with
  | none => rfl
  | some j =>
    simp only [handleMessage, msgSucceeds, parseUnits]
    cases hc : pyContains j "Records" with
    | error e => rfl
    | ok b =>
      cases b with
      | false => rfl
      | true =>
        cases hi : pyIndex j "Records" with
        | error e => rfl
        | ok v =>
          cases v with
          | arr rs =>
            rcases hr : processRecords o rb s 0 rs with ⟨s', n, e⟩
            cases e with
            | none =>
              have hall : rs.all (recordOk o rb) = true := by
                rw [← processRecords_err_iff o rb rs s 0, hr]
              obtain ⟨us, hok, hallus⟩ := (parseList_all_iff o rb rs).mpr hall
              simp [hr, hok, hallus]
            | some err =>
              have hall : rs.all (recordOk o rb) ≠ true := by
                intro hx
                rw [← processRecords_err_iff o rb rs s 0, hr] at hx
                simp at hx
              cases hpl : parseRecordList rb rs with
              | error e2 => simp [hr, hpl]
              | ok us =>
                have hus : ¬ us.all (unitSucceeds o) = true := fun hus =>
                  hall ((parseList_all_iff o rb rs).mp ⟨us, hpl, hus⟩)
                rw [Bool.not_eq_true] at hus
                simp [hr, hpl, hus]
          | null => rfl
          | bool b => rfl
          | num q => rfl
          | str t => rfl
          | obj fs => rfl

/-- Counter `tickets_processed` grows by exactly the number of units of the message
that were durably stored. -/
theorem handleMessage_processed (o : Oracles) (rb : String) (s : Store) (body : Option Json) :
    (handleMessage o rb s body).processedDelta = storedCount o rb body := by
  cases body with
  | none => rfl
  | some j =>
    simp only [handleMessage, storedCount]
    cases hc : pyContains j "Records" with
    | error e => rfl
    | ok b =>
      cases b with
      | false => rfl
      | true =>
        cases hi : pyIndex j "Records" with
        | error e => rfl
        | ok v =>
          cases v with
          | arr rs =>
            have hcount := processRecords_count o rb rs s 0
            rcases hr : processRecords o rb s 0 rs with ⟨s', n, e⟩
            rw [hr] at hcount
            have hn : n = succCount o rb rs := by simpa using hcount
            cases e with
            | none => simp [hr, hn]
            | some err => simp [hr, hn]
          | null => rfl
          | bool b => rfl
          | num q => rfl
          | str t => rfl
          | obj fs => rfl

/-- In every outcome of `handleMessage`, an un-deleted message counts one
failure and a deleted message none. -/
theorem handleMessage_failed_split (o : Oracles) (rb : String) (s : Store) (body : Option Json) :
    ((handleMessage o rb s body).deleted = true → (handleMessage o rb s body).failedDelta = 0) ∧
    ((handleMessage o rb s body).deleted = false → (handleMessage o rb s body).failedDelta = 1) := by
  cases body with
  | none => exact And.intro (fun h => nomatch h) (fun _ => rfl)
  | some j =>
    simp only [handleMessage]
    cases hc : pyContains j "Records" with
    | error e => exact And.intro (fun h => nomatch h) (fun _ => rfl)
    | ok b =>
      cases b with
      | false => exact And.intro (fun _ => rfl) (fun h => nomatch h)
      | true =>
        cases hi : pyIndex j "Records" with
        | error e => exact And.intro (fun h => nomatch h) (fun _ => rfl)
        | ok v =>
          cases v with
          | arr rs =>
            rcases hr : processRecords o rb s 0 rs with ⟨s', n, e⟩
            cases e <;> simp [hr]
          | null => exact And.intro (fun h => nomatch h) (fun _ => rfl)
          | bool b => exact And.intro (fun h => nomatch h) (fun _ => rfl)
          | num q => exact And.intro (fun h => nomatch h) (fun _ => rfl)
          | str t => exact And.intro (fun h => nomatch h) (fun _ => rfl)
          | obj fs => exact And.intro (fun h => nomatch h) (fun _ => rfl)

/-- Counter `tickets_failed` grows by one exactly when handling the message fails
(and by zero otherwise). -/
theorem handleMessage_failed (o : Oracles) (rb : String) (s : Store) (body : Option Json) :
    (handleMessage o rb s body).failedDelta = if msgSucceeds o rb body then 0 else 1 := by
  have hsplit := handleMessage_failed_split o rb s body
  have hd := handleMessage_deleted o rb s body
  cases hm : msgSucceeds o rb body with
  | true => rw [hm] at hd; simpa using hsplit.1 hd
  | false => rw [hm] at hd; simpa using hsplit.2 hd

/-- The deletion decisions of a poll cycle: one per message, in order, each
depending only on that message's own outcome. -/
theorem processBatch_deletions (o : Oracles) (rb : String) :
    ∀ (msgs : List (Option Json)) (s : Store),
      (processBatch o rb s msgs).2.2.2 = msgs.map (msgSucceeds o rb) := by
  intro msgs
  induction msgs with
  | nil => intro s; rfl
  | cons m ms ih =>
    intro s
    unfold processBatch
    rcases hb : processBatch o rb (handleMessage o rb s m).store ms with ⟨s', p, f, ds⟩
    have hds : ds = ms.map (msgSucceeds o rb) := by
      have := ih (handleMessage o rb s m).store
      rw [hb] at this
      exact this
    simp only [hb, List.map_cons]
    rw [handleMessage_deleted, hds]

/-! ## Lemmas about schema validation -/

/-- Every failure of a required-string getter is a validation error. -/
theorem getStrField_err (fs : List (String × Json)) (k : String) (e : UnitError)
    (h : getStrField fs k = .error e) : e = .validation := by
  unfold getStrField at h
  split at h
  · cases h
  · injection h with h; exact h.symm

/-- Every failure of the int getter is a validation error. -/
theorem getIntField_err (fs : List (String × Json)) (k : String) (e : UnitError)
    (h : getIntField fs k = .error e) : e = .validation := by
  unfold getIntField at h
  split at h
  · split at h
    · cases h
    · injection h with h; exact h.symm
  · split at h
    · cases h
    · injection h with h; exact h.symm
  · injection h with h; exact h.symm

/-- Every failure of the priority getter is a validation error. -/
theorem getPriorityField_err (fs : List (String × Json)) (e : UnitError)
    (h : getPriorityField fs = .error e) : e = .validation := by
  unfold getPriorityField at h
  split at h
  · cases h
  · cases h
  · cases h
  · injection h with h; exact h.symm

/-- A bad required string field makes its getter fail. -/
theorem getStrField_of_bad (fs : List (String × Json)) (k : String)
    (h : strFieldBad fs k = true) : getStrField fs k = .error .validation := by
  unfold strFieldBad at h
  unfold getStrField
  split
  · next s hl => rw [hl] at h; simp at h
  · rfl

/-- A bad `created_at` field makes its getter fail. -/
theorem getIntField_of_bad (fs : List (String × Json))
    (h : createdAtBad fs = true) : getIntField fs "created_at" = .error .validation := by
  unfold createdAtBad at h
  unfold getIntField
  split
  · next q hl =>
    simp only [hl, bne_iff_ne, ne_eq] at h
    rw [if_neg h]
  · next s hl =>
    simp only [hl] at h
    split
    · next n hs => rw [hs] at h; simp at h
    · rfl
  · rfl

/-- A successful required-string getter means the field was present and a
string. -/
theorem strFieldBad_false_of_ok (fs : List (String × Json)) (k : String) (s : String)
    (h : getStrField fs k = .ok s) : strFieldBad fs k = false := by
  unfold getStrField at h
  unfold strFieldBad
  cases hl : fs.lookup k with
  | none => rw [hl] at h; cases h
  | some v =>
    rw [hl] at h
    cases v <;> first | rfl | cases h

/-- A successful int getter means `created_at` was present and int-like. -/
theorem createdAtBad_false_of_ok (fs : List (String × Json)) (n : Int)
    (h : getIntField fs "created_at" = .ok n) : createdAtBad fs = false := by
  unfold getIntField at h
  unfold createdAtBad
  cases hl : fs.lookup "created_at" with
  | none => rw [hl] at h; cases h
  | some v =>
    rw [hl] at h
    cases v
    case null => cases h
    case bool b => cases h
    case num q =>
      replace h : (if q.den = 1 then (Except.ok q.num : Except UnitError Int)
          else Except.error UnitError.validation) = Except.ok n := h
      show (q.den != 1) = false
      by_cases hd : q.den = 1
      · simp [hd]
      · rw [if_neg hd] at h; cases h
    case str s =>
      replace h : (match strToInt? s with
          | some m => (Except.ok m : Except UnitError Int)
          | none => Except.error UnitError.validation) = Except.ok n := h
      show (strToInt? s).isNone = false
      cases hs : strToInt? s with
      | some m => simp [hs]
      | none => rw [hs] at h; cases h
    case arr xs => cases h
    case obj f2 => cases h

/-- A raw document with a required field absent or of the wrong type fails
pydantic validation with a `ValidationError`. -/
theorem validateRawTicket_err_of_bad (fs : List (String × Json))
    (h : (strFieldBad fs "ticket_id" || strFieldBad fs "subject" || strFieldBad fs "body" ||
          createdAtBad fs || strFieldBad fs "customer_id") = true) :
    validateRawTicket (Json.obj fs) = .error .validation := by
  simp only [validateRawTicket]
  cases h1 : getStrField fs "ticket_id" with
  | error e => have he := getStrField_err fs "ticket_id" e h1; subst he; rfl
  | ok tid =>
    cases h2 : getStrField fs "subject" with
    | error e => have he := getStrField_err fs "subject" e h2; subst he; rfl
    | ok subject =>
      cases h3 : getStrField fs "body" with
      | error e => have he := getStrField_err fs "body" e h3; subst he; rfl
      | ok body =>
        cases h4 : getPriorityField fs with
        | error e => have he := getPriorityField_err fs e h4; subst he; rfl
        | ok pr =>
          cases h5 : getIntField fs "created_at" with
          | error e => have he := getIntField_err fs "created_at" e h5; subst he; rfl
          | ok created =>
            cases h6 : getStrField fs "customer_id" with
            | error e => have he := getStrField_err fs "customer_id" e h6; subst he; rfl
            | ok cust =>
              rw [strFieldBad_false_of_ok fs "ticket_id" tid h1,
                  strFieldBad_false_of_ok fs "subject" subject h2,
                  strFieldBad_false_of_ok fs "body" body h3,
                  createdAtBad_false_of_ok fs created h5,
                  strFieldBad_false_of_ok fs "customer_id" cust h6] at h
              simp at h

/-- A unit whose raw document fails validation is rejected with a validation
error and leaves both stores untouched. -/
theorem processUnit_of_validation_err (o : Oracles) (s : Store) (b k : String) (raw : Json)
    (hf : o.fetchObj b k = some raw)
    (hbad : validateRawTicket raw = .error .validation) :
    processUnit o s (.str b) (.str k) = (s, some UnitError.validation) := by
  unfold processUnit
  simp only [hf]
  unfold process_ticket
  simp only [hbad]

/-! ## Lemmas about record lists with a parse failure -/

/-- Bodies of the shape `{"Records": [...]}`: the stored-unit count is the
record-list count. -/
theorem storedCount_records (o : Oracles) (rb : String) (rs : List Json) :
    storedCount o rb (some (Json.obj [("Records", Json.arr rs)])) = succCount o rb rs := rfl

/-- Bodies of the shape `{"Records": [...]}`: overall success is per-record
success. -/
theorem msgSucceeds_records (o : Oracles) (rb : String) (rs : List Json) :
    msgSucceeds o rb (some (Json.obj [("Records", Json.arr rs)])) = rs.all (recordOk o rb) := by
  show (match parseRecordList rb rs with
    | .error _ => false
    | .ok us => us.all (unitSucceeds o)) = rs.all (recordOk o rb)
  cases hall : rs.all (recordOk o rb) with
  | true =>
    obtain ⟨us, hok, hus⟩ := (parseList_all_iff o rb rs).mpr hall
    rw [hok]
    exact hus
  | false =>
    cases hpl : parseRecordList rb rs with
    | error e => rfl
    | ok us =>
      cases hus : us.all (unitSucceeds o) with
      | false => exact hus
      | true =>
        have := (parseList_all_iff o rb rs).mp ⟨us, hpl, hus⟩
        rw [hall] at this
        cases this

/-- Does a record parse to a unit whose processing succeeds, unpacked. -/
theorem recordOk_true_iff (o : Oracles) (rb : String) (r : Json) :
    recordOk o rb r = true ↔
      ∃ u, parseRecord rb r = .ok u ∧ unitSucceeds o u = true := by
  unfold recordOk
  cases hpr : parseRecord rb r with
  | error e => simp [hpr]
  | ok u => simp [hpr]

/-- Unfolding `succCount` over a record that parses. -/
theorem succCount_cons_ok (o : Oracles) (rb : String) (r : Json) (rs : List Json)
    (u : Json × Json) (h : parseRecord rb r = .ok u) :
    succCount o rb (r :: rs) =
      if unitSucceeds o u then succCount o rb rs + 1 else 0 := by
  simp only [succCount]
  rw [h]

/-- A prefix of records that all parse and succeed contributes its length to
the stored-unit count. -/
theorem succCount_ok_prefix (o : Oracles) (rb : String) :
    ∀ (rs₁ rs₂ : List Json), (∀ r ∈ rs₁, recordOk o rb r = true) →
      succCount o rb (rs₁ ++ rs₂) = rs₁.length + succCount o rb rs₂ := by
  intro rs₁
  induction rs₁ with
  | nil => intro rs₂ _; simp
  | cons r rs ih =>
    intro rs₂ h
    have hr : recordOk o rb r = true := h r (List.mem_cons_self r rs)
    have htl : ∀ r' ∈ rs, recordOk o rb r' = true :=
      fun r' hm => h r' (List.mem_cons_of_mem r hm)
    obtain ⟨u, hpr, hu⟩ := (recordOk_true_iff o rb r).mp hr
    rw [List.cons_append, succCount_cons_ok o rb r (rs ++ rs₂) u hpr, if_pos hu,
      ih rs₂ htl]
    simp only [List.length_cons]
    omega

/-- A record that does not parse stops the count. -/
theorem succCount_err_head (o : Oracles) (rb : String) (bad : Json) (rest : List Json)
    (e : UnitError) (h : parseRecord rb bad = .error e) :
    succCount o rb (bad :: rest) = 0 := by
  unfold succCount
  rw [h]

/-- A record that does not parse falsifies per-record success of any list
containing it. -/
theorem all_recordOk_false_of_err (o : Oracles) (rb : String) (rs₁ : List Json) (bad : Json)
    (rest : List Json) (e : UnitError) (h : parseRecord rb bad = .error e) :
    (rs₁ ++ bad :: rest).all (recordOk o rb) = false := by
  have hbad : recordOk o rb bad = false := by unfold recordOk; rw [h]
  simp [List.all_append, List.all_cons, hbad]

/-! ## Lemmas about the classifier labels -/

/-- Membership form of a successful `List.findSome?`. -/
theorem findSome?_mem {α β : Type} (f : α → Option β) :
    ∀ (l : List α) (b : β), l.findSome? f = some b → ∃ a ∈ l, f a = some b := by
  intro l
  induction l with
  | nil => intro b h; cases h
  | cons a l ih =>
    intro b h
    unfold List.findSome? at h
    cases hf : f a with
    | some c =>
      rw [hf] at h
      injection h with h
      exact ⟨a, List.mem_cons_self a l, by rw [hf, h]⟩
    | none =>
      rw [hf] at h
      obtain ⟨x, hx, hfx⟩ := ih b h
      exact ⟨x, List.mem_cons_of_mem a hx, hfx⟩

/-- A keyword hit always carries one of the four urgency labels. -/
theorem searchUrgency_label (text : List Char) (u : String) (q : ℚ)
    (h : searchUrgency text = some (u, q)) :
    u = "critical" ∨ u = "high" ∨ u = "medium" ∨ u = "low" := by
  unfold searchUrgency at h
  obtain ⟨p, hp, hf⟩ := findSome?_mem _ _ _ h
  simp only [URGENCY_KEYWORDS, List.mem_cons, List.not_mem_nil, or_false] at hp
  rcases hp with hp | hp | hp | hp <;> subst hp <;>
    · split at hf
      · injection hf with hf
        rw [Prod.mk.injEq] at hf
        simp [← hf.1]
      · cases hf

/-- The keyword phase of `classify_urgency` produces one of the four labels. -/
theorem classify_urgency_keywords_label (text : String) :
    (classify_urgency_keywords text).1 = "critical" ∨
    (classify_urgency_keywords text).1 = "high" ∨
    (classify_urgency_keywords text).1 = "medium" ∨
    (classify_urgency_keywords text).1 = "low" := by
  unfold classify_urgency_keywords
  split
  · simp
  · cases hse : searchUrgency text.data with
    | some r =>
      obtain ⟨u, q⟩ := r
      simpa using searchUrgency_label text.data u q hse
    | none => simp

/-- Every urgency label produced by `classify_urgency` is one of the four. -/
theorem classify_urgency_label (j : Json) (u : String) (q : ℚ)
    (h : classify_urgency j = .ok (u, q)) :
    u = "critical" ∨ u = "high" ∨ u = "medium" ∨ u = "low" := by
  unfold classify_urgency at h
  cases hp : getPriorityLower j with
  | error e => rw [hp] at h; cases h
  | ok p =>
    rw [hp] at h
    replace h : (if p = "critical" ∨ p = "high" ∨ p = "medium" ∨ p = "low"
        then (Except.ok (p, 1) : Except UnitError (String × ℚ))
        else
          match pyGetStrD j "subject" with
          | .error e => .error e
          | .ok subject =>
            match pyGetStrD j "body" with
            | .error e => .error e
            | .ok body =>
              .ok (classify_urgency_keywords (pyLower (subject ++ " " ++ body)))) =
        .ok (u, q) := h
    split at h
    · next hin =>
      injection h with h
      rw [Prod.mk.injEq] at h
      rw [← h.1]
      exact hin
    · cases hs : pyGetStrD j "subject" with
      | error e => rw [hs] at h; cases h
      | ok subject =>
        rw [hs] at h
        cases hb : pyGetStrD j "body" with
        | error e => rw [hb] at h; cases h
        | ok body =>
          rw [hb] at h
          replace h : Except.ok (ε := UnitError)
              (classify_urgency_keywords (pyLower (subject ++ " " ++ body))) =
              .ok (u, q) := h
          injection h with h
          have hlbl := classify_urgency_keywords_label (pyLower (subject ++ " " ++ body))
          rw [h] at hlbl
          simpa using hlbl

/-! ## Inversion of a successful pipeline run -/

/-- A successful `process_ticket` run exposes the validated ticket, the
classification summary, and the pydantic bounds on its confidences. -/
theorem process_ticket_ok_inv (o : Oracles) (raw : Json) (t : EnrichedTicket)
    (h : process_ticket o raw = .ok t) :
    ∃ rt, validateRawTicket raw = .ok rt ∧ t.ticket_id = rt.ticket_id ∧
      t.created_at = rt.created_at ∧
      ∃ c : ClassificationSummary, get_classification_summary o raw = .ok c ∧
        t.enrichment.intent_confidence = c.intent_confidence ∧
        t.enrichment.urgency_confidence = c.urgency_confidence ∧
        t.enrichment.sentiment_confidence = c.sentiment_confidence ∧
        t.enrichment.urgency = c.urgency ∧
        0 ≤ c.intent_confidence ∧ c.intent_confidence ≤ 1 ∧
        0 ≤ c.urgency_confidence ∧ c.urgency_confidence ≤ 1 ∧
        0 ≤ c.sentiment_confidence ∧ c.sentiment_confidence ≤ 1 := by
  unfold process_ticket at h
  cases hv : validateRawTicket raw with
  | error e => rw [hv] at h; cases h
  | ok rt =>
    rw [hv] at h
    cases hemb : generate_ticket_embedding o raw with
    | error e => rw [hemb] at h; cases h
    | ok embedding =>
      rw [hemb] at h
      cases hc : get_classification_summary o raw with
      | error e => rw [hc] at h; cases h
      | ok c =>
        rw [hc] at h
        cases hsum : generate_summary o raw with
        | error e => rw [hsum] at h; cases h
        | ok summary =>
          rw [hsum] at h
          replace h : (match mkEnrichmentData embedding c.intent c.intent_confidence
              c.urgency c.urgency_confidence c.sentiment c.sentiment_confidence
              summary o.now with
            | Except.error e => (Except.error e : Except UnitError EnrichedTicket)
            | Except.ok enrichment => Except.ok (EnrichedTicket.from_raw rt enrichment)) =
              Except.ok t := h
          cases hmk : mkEnrichmentData embedding c.intent c.intent_confidence c.urgency
              c.urgency_confidence c.sentiment c.sentiment_confidence summary o.now with
          | error e => rw [hmk] at h; cases h
          | ok enr =>
            rw [hmk] at h
            injection h with h
            subst h
            unfold mkEnrichmentData at hmk
            split at hmk
            · next hbounds =>
              injection hmk with hmk
              subst hmk
              exact ⟨rt, rfl, rfl, rfl, c, rfl, rfl, rfl, rfl, rfl,
                hbounds.1, hbounds.2.1, hbounds.2.2.1, hbounds.2.2.2.1,
                hbounds.2.2.2.2.1, hbounds.2.2.2.2.2⟩
            · cases hmk

/-- A successful `get_classification_summary` run carries the
`classify_urgency` result in its urgency fields. -/
theorem get_classification_summary_ok_inv (o : Oracles) (j : Json)
    (c : ClassificationSummary) (h : get_classification_summary o j = .ok c) :
    classify_urgency j = .ok (c.urgency, c.urgency_confidence) := by
  unfold get_classification_summary at h
  cases hi : classify_intent j with
  | error e => rw [hi] at h; cases h
  | ok p =>
    obtain ⟨i, ic⟩ := p
    rw [hi] at h
    cases hu : classify_urgency j with
    | error e => rw [hu] at h; cases h
    | ok p2 =>
      obtain ⟨u, uc⟩ := p2
      rw [hu] at h
      cases hs : classify_sentiment o j with
      | error e => rw [hs] at h; cases h
      | ok p3 =>
        obtain ⟨sl, sc⟩ := p3
        rw [hs] at h
        injection h with h
        subst h
        rfl

/-- Filtering out a key removes every entry counted by that key. -/
theorem countP_key_filter_out {α β : Type} [BEq α] (key : α) (l : List (α × β)) :
    (l.filter (fun e => !(e.1 == key))).countP (fun e => e.1 == key) = 0 := by
  rw [List.countP_eq_zero]
  intro a ha
  rw [List.mem_filter] at ha
  simpa using ha.2

/-! ## Claim theorems -/

/-- C1 (counterexample): the claim says the blob write precedes the
projection write, so a failure between the two can never leave a projection
without its blob.  In the code the first write of `store_results` is
`table.put_item`; interrupting after it leaves the projection row present and
the blob store empty. -/
theorem blob_before_projection_cex :
    (store_results_effects t0).head? =
      some (WriteEff.putItem (DynamoDBTicket.from_enriched t0)) ∧
    (crashAfter Store.empty t0 1).table.map Prod.fst = [("T1", 0)] ∧
    (crashAfter Store.empty t0 1).blobs = [] :=
  ⟨rfl, rfl, rfl⟩

/-- C1 (amended): in `store_results` the projection (DynamoDB) write precedes
the blob (S3) write; a failure between the two leaves the projection present
under `(ticket_id, created_at)` and the blob store unchanged — an orphan
projection, never an orphan blob. -/
theorem store_results_projection_before_blob (t : EnrichedTicket) (s : Store) :
    store_results_effects t =
      [WriteEff.putItem (DynamoDBTicket.from_enriched t),
       WriteEff.putObject (t.ticket_id ++ ".json") t] ∧
    crashAfter s t 1 = s.putItem (DynamoDBTicket.from_enriched t) ∧
    (crashAfter s t 1).blobs = s.blobs ∧
    (crashAfter s t 1).table.lookup (t.ticket_id, t.created_at) =
      some (DynamoDBTicket.from_enriched t) := by
  refine ⟨rfl, rfl, rfl, ?_⟩
  show List.lookup (t.ticket_id, t.created_at)
      (((t.ticket_id, t.created_at), DynamoDBTicket.from_enriched t) ::
        s.table.filter (fun e => !(e.1 == (t.ticket_id, t.created_at)))) =
    some (DynamoDBTicket.from_enriched t)
  rw [List.lookup_cons]
  simp

/-- C2: a queue message is deleted (acknowledged) iff its body parses into a
list of ProcessingUnits and every one of them was durably written to both
stores; in particular a message encoding several units of which only some
succeed is never deleted. -/
theorem message_deleted_iff_all_units_durable (o : Oracles) (rb : String) (s : Store)
    (body : Option Json) :
    (handleMessage o rb s body).deleted = true ↔
      ∃ us, parseUnits rb body = Except.ok us ∧ ∀ u ∈ us, unitSucceeds o u = true := by
  rw [handleMessage_deleted]
  unfold msgSucceeds
  cases hpl : parseUnits rb body with
  | error e => simp
  | ok us => simp [List.all_eq_true]

/-- C3 (counterexample): the claim says a direct key-reference body without
the `Records` shape yields a unit over the configured raw bucket which is
then fetched, enriched and stored.  In the code such a body runs an empty
record loop: nothing is fetched or stored, the stats are untouched and the
message is deleted — even though the referenced object exists and its unit
would have succeeded. -/
theorem direct_key_body_not_processed_cex :
    handleMessage sampleOracle "tickets-raw" Store.empty
        (some (Json.obj [("key", Json.str "g.json")])) =
      ⟨Store.empty, 0, 0, true⟩ ∧
    parseUnits "tickets-raw" (some (Json.obj [("key", Json.str "g.json")])) =
      Except.ok [] ∧
    unitSucceeds sampleOracle (Json.str "tickets-raw", Json.str "g.json") = true :=
  ⟨rfl, rfl, rfl⟩

/-- C3 (amended): the raw-bucket default applies to entries inside a
`Records` list that lack the `s3` shape: such a record parses to the unit
`(configured raw bucket, record's "key" field)`, and a message carrying it is
processed exactly as the processing of that unit dictates. -/
theorem records_entry_key_defaults_to_raw_bucket (o : Oracles) (rb : String) (s : Store)
    (k : String) :
    parseRecord rb (Json.obj [("key", Json.str k)]) =
      Except.ok (Json.str rb, Json.str k) ∧
    handleMessage o rb s
        (some (Json.obj [("Records", Json.arr [Json.obj [("key", Json.str k)]])])) =
      (match processUnit o s (Json.str rb) (Json.str k) with
        | (s', none) => ⟨s', 1, 0, true⟩
        | (s', some _) => ⟨s', 0, 1, false⟩) := by
  refine ⟨rfl, ?_⟩
  show (match (match processUnit o s (Json.str rb) (Json.str k) with
      | (s', some e) => (s', 0, some e)
      | (s', none) => (s', 1, (none : Option UnitError))) with
    | (s', n, none) => (⟨s', n, 0, true⟩ : MsgResult)
    | (s', n, some _) => ⟨s', n, 1, false⟩) = _
  rcases hu : processUnit o s (Json.str rb) (Json.str k) with ⟨s', e⟩
  cases e <;> rfl

/-- C4 (counterexample): the claim says an unparsable record makes the whole
message fail with no unit processed or stored.  In the code parsing is
interleaved with processing: with a good record before the unparsable one,
the good unit is fully processed and stored (blob and row present,
`tickets_processed` incremented) while the message stays unacknowledged. -/
theorem unit_stored_despite_parse_error_cex :
    (handleMessage sampleOracle "tickets-raw" Store.empty
        (some (Json.obj [("Records", Json.arr [goodRec, badRec])]))).processedDelta = 1 ∧
    (handleMessage sampleOracle "tickets-raw" Store.empty
        (some (Json.obj [("Records", Json.arr [goodRec, badRec])]))).failedDelta = 1 ∧
    (handleMessage sampleOracle "tickets-raw" Store.empty
        (some (Json.obj [("Records", Json.arr [goodRec, badRec])]))).deleted = false ∧
    (handleMessage sampleOracle "tickets-raw" Store.empty
        (some (Json.obj [("Records", Json.arr [goodRec, badRec])]))).store.blobs.map
        Prod.fst = ["T1.json"] ∧
    (handleMessage sampleOracle "tickets-raw" Store.empty
        (some (Json.obj [("Records", Json.arr [goodRec, badRec])]))).store.table.map
        Prod.fst = [("T1", 0)] :=
  ⟨rfl, rfl, rfl, rfl, rfl⟩

/-- C4 (amended): an unparsable record is fatal for the message from that
record on: the message is left unacknowledged and counts one failure, while
the units of the parse-ok, fully-succeeding prefix before it have already
been processed and stored (one `tickets_processed` increment each); no
record after the unparsable one is touched. -/
theorem record_parse_error_fatal_for_remainder (o : Oracles) (rb : String) (s : Store)
    (rs₁ : List Json) (bad : Json) (rest : List Json) (e : UnitError)
    (h₁ : ∀ r ∈ rs₁, recordOk o rb r = true)
    (h₂ : parseRecord rb bad = Except.error e) :
    (handleMessage o rb s
        (some (Json.obj [("Records", Json.arr (rs₁ ++ bad :: rest))]))).deleted = false ∧
    (handleMessage o rb s
        (some (Json.obj [("Records",
          Json.arr (rs₁ ++ bad :: rest))]))).processedDelta = rs₁.length ∧
    (handleMessage o rb s
        (some (Json.obj [("Records", Json.arr (rs₁ ++ bad :: rest))]))).failedDelta = 1 := by
  have hall := all_recordOk_false_of_err o rb rs₁ bad rest e h₂
  have hms : msgSucceeds o rb
      (some (Json.obj [("Records", Json.arr (rs₁ ++ bad :: rest))])) = false := by
    rw [msgSucceeds_records, hall]
  refine ⟨?_, ?_, ?_⟩
  · rw [handleMessage_deleted, hms]
  · rw [handleMessage_processed, storedCount_records,
      succCount_ok_prefix o rb rs₁ (bad :: rest) h₁,
      succCount_err_head o rb bad rest e h₂]
    omega
  · rw [handleMessage_failed, hms]
    rfl

/-- C4 (witness): concrete instance of the amended claim, with one good
record before the unparsable one. -/
theorem record_parse_error_fatal_for_remainder_witness :
    (∀ r ∈ [goodRec], recordOk sampleOracle "tickets-raw" r = true) ∧
    parseRecord "tickets-raw" badRec = Except.error UnitError.parse ∧
    (handleMessage sampleOracle "tickets-raw" Store.empty
        (some (Json.obj [("Records", Json.arr ([goodRec] ++ badRec :: []))]))).deleted
      = false ∧
    (handleMessage sampleOracle "tickets-raw" Store.empty
        (some (Json.obj [("Records",
          Json.arr ([goodRec] ++ badRec :: []))]))).processedDelta = [goodRec].length := by
  have hg : ∀ r ∈ [goodRec], recordOk sampleOracle "tickets-raw" r = true := by
    intro r hr
    rw [List.mem_singleton] at hr
    subst hr
    rfl
  have main := record_parse_error_fatal_for_remainder sampleOracle "tickets-raw"
    Store.empty [goodRec] badRec [] UnitError.parse hg rfl
  exact ⟨hg, rfl, main.1, main.2.1⟩

/-- C5: a raw document with a required field (`ticket_id`, `subject`, `body`,
`created_at`, `customer_id`) absent or of the wrong type fails pydantic
validation with a `ValidationError`, and processing its unit performs no
write to either store. -/
theorem validation_error_prevents_writes (o : Oracles) (s : Store) (b k : String)
    (fs : List (String × Json))
    (hf : o.fetchObj b k = some (Json.obj fs))
    (hbad : (strFieldBad fs "ticket_id" || strFieldBad fs "subject" ||
        strFieldBad fs "body" || createdAtBad fs ||
        strFieldBad fs "customer_id") = true) :
    validateRawTicket (Json.obj fs) = Except.error UnitError.validation ∧
    processUnit o s (Json.str b) (Json.str k) = (s, some UnitError.validation) := by
  have hv := validateRawTicket_err_of_bad fs hbad
  exact ⟨hv, processUnit_of_validation_err o s b k (Json.obj fs) hf hv⟩

/-- C5 (witness): the §8 scenario — a raw document missing `customer_id`
yields a validation error and leaves the stores untouched. -/
theorem validation_error_prevents_writes_witness :
    validateRawTicket badRawJson = Except.error UnitError.validation ∧
    processUnit sampleOracle Store.empty (Json.str "tickets-raw") (Json.str "bad.json") =
      (Store.empty, some UnitError.validation) :=
  validation_error_prevents_writes sampleOracle Store.empty "tickets-raw" "bad.json"
    [("ticket_id", Json.str "T1"), ("subject", Json.str "a"), ("body", Json.str ""),
     ("created_at", Json.num 0)] rfl rfl

/-- C6: in one poll cycle every received message is handled and gets its own
deletion decision, equal to that message's own success and independent of the
other messages in the batch: a failing message never aborts the batch and
never prevents another message from being acknowledged. -/
theorem batch_isolation (o : Oracles) (rb : String) (s : Store)
    (msgs : List (Option Json)) :
    (processBatch o rb s msgs).2.2.2 = msgs.map (msgSucceeds o rb) ∧
    (processBatch o rb s msgs).2.2.2.length = msgs.length := by
  have h := processBatch_deletions o rb msgs s
  exact ⟨h, by rw [h, List.length_map]⟩

/-- C7: the stats counters move at unit granularity, independent of
message-level acknowledgment: `tickets_processed` grows by one per durably
stored unit of the message (several per message possible), and
`tickets_failed` grows by one exactly when the message's handling fails. -/
theorem stats_count_units_not_messages (o : Oracles) (rb : String) (s : Store)
    (body : Option Json) :
    (handleMessage o rb s body).processedDelta = storedCount o rb body ∧
    (handleMessage o rb s body).failedDelta =
      (if msgSucceeds o rb body then 0 else 1) :=
  ⟨handleMessage_processed o rb s body, handleMessage_failed o rb s body⟩

/-- C8: both storage keys are deterministic functions of the raw ticket
alone — blob key `"{ticket_id}.json"`, projection key
`(ticket_id, created_at)`, projection attribute `s3_key` equal to the blob
key — so reprocessing the same raw document (any oracles) writes to the same
keys and overwrites instead of duplicating. -/
theorem storage_keys_deterministic_idempotent (o₁ o₂ : Oracles) (raw : Json)
    (t t' : EnrichedTicket) (s : Store)
    (h₁ : process_ticket o₁ raw = Except.ok t)
    (h₂ : process_ticket o₂ raw = Except.ok t') :
    (DynamoDBTicket.from_enriched t).s3_key = t.ticket_id ++ ".json" ∧
    (DynamoDBTicket.from_enriched t).ticket_id = t.ticket_id ∧
    (DynamoDBTicket.from_enriched t).created_at = t.created_at ∧
    store_results_effects t =
      [WriteEff.putItem (DynamoDBTicket.from_enriched t),
       WriteEff.putObject (t.ticket_id ++ ".json") t] ∧
    t'.ticket_id = t.ticket_id ∧ t'.created_at = t.created_at ∧
    (applyEffs s (store_results_effects t ++ store_results_effects t')).table.countP
        (fun x => x.1 == (t.ticket_id, t.created_at)) = 1 ∧
    (applyEffs s (store_results_effects t ++ store_results_effects t')).blobs.countP
        (fun x => x.1 == t.ticket_id ++ ".json") = 1 := by
  obtain ⟨rt, hv₁, ht₁, hc₁, -⟩ := process_ticket_ok_inv o₁ raw t h₁
  obtain ⟨rt', hv₂, ht₂, hc₂, -⟩ := process_ticket_ok_inv o₂ raw t' h₂
  rw [hv₁] at hv₂
  injection hv₂ with hv₂
  subst hv₂
  have hid : t'.ticket_id = t.ticket_id := by rw [ht₁, ht₂]
  have hca : t'.created_at = t.created_at := by rw [hc₁, hc₂]
  refine ⟨rfl, rfl, rfl, rfl, hid, hca, ?_, ?_⟩
  · show ((((s.putItem (DynamoDBTicket.from_enriched t)).putBlob
        (t.ticket_id ++ ".json") t).putItem
        (DynamoDBTicket.from_enriched t')).putBlob
        (t'.ticket_id ++ ".json") t').table.countP
        (fun x => x.1 == (t.ticket_id, t.created_at)) = 1
    simp only [Store.putItem, Store.putBlob, DynamoDBTicket.from_enriched]
    rw [hid, hca]
    rw [List.countP_cons_of_pos _ _ (by simp), countP_key_filter_out]
  · show ((((s.putItem (DynamoDBTicket.from_enriched t)).putBlob
        (t.ticket_id ++ ".json") t).putItem
        (DynamoDBTicket.from_enriched t')).putBlob
        (t'.ticket_id ++ ".json") t').blobs.countP
        (fun x => x.1 == t.ticket_id ++ ".json") = 1
    simp only [Store.putItem, Store.putBlob, DynamoDBTicket.from_enriched]
    rw [hid]
    rw [List.countP_cons_of_pos _ _ (by simp), countP_key_filter_out]

/-- C8 (witness): reprocessing the sample raw document writes to the same
keys and leaves exactly one projection row and one blob for them. -/
theorem storage_keys_deterministic_idempotent_witness :
    process_ticket sampleOracle sampleRawJson = Except.ok t0 ∧
    (DynamoDBTicket.from_enriched t0).s3_key = "T1.json" ∧
    (applyEffs Store.empty (store_results_effects t0 ++ store_results_effects t0)).table.countP
        (fun x => x.1 == (t0.ticket_id, t0.created_at)) = 1 ∧
    (applyEffs Store.empty (store_results_effects t0 ++ store_results_effects t0)).blobs.countP
        (fun x => x.1 == t0.ticket_id ++ ".json") = 1 := by
  have main := storage_keys_deterministic_idempotent sampleOracle sampleOracle
    sampleRawJson t0 t0 Store.empty rfl rfl
  exact ⟨rfl, main.1, main.2.2.2.2.2.2.1, main.2.2.2.2.2.2.2⟩

/-- C9: every enrichment result the pipeline produces has its three
confidence scores in `[0, 1]` (enforced by the pydantic field constraints)
and an urgency label among critical, high, medium, low (by construction of
`classify_urgency`). -/
theorem enrichment_confidence_bounds_and_urgency_labels (o : Oracles) (raw : Json)
    (t : EnrichedTicket) (h : process_ticket o raw = Except.ok t) :
    0 ≤ t.enrichment.intent_confidence ∧ t.enrichment.intent_confidence ≤ 1 ∧
    0 ≤ t.enrichment.urgency_confidence ∧ t.enrichment.urgency_confidence ≤ 1 ∧
    0 ≤ t.enrichment.sentiment_confidence ∧ t.enrichment.sentiment_confidence ≤ 1 ∧
    (t.enrichment.urgency = "critical" ∨ t.enrichment.urgency = "high" ∨
     t.enrichment.urgency = "medium" ∨ t.enrichment.urgency = "low") := by
  obtain ⟨rt, hv, -, -, c, hc, hic, huc, hsc, hurg, b1, b2, b3, b4, b5, b6⟩ :=
    process_ticket_ok_inv o raw t h
  have hu := get_classification_summary_ok_inv o raw c hc
  have hlbl := classify_urgency_label raw c.urgency c.urgency_confidence hu
  rw [hic, huc, hsc, hurg]
  exact ⟨b1, b2, b3, b4, b5, b6, hlbl⟩

/-- C9 (witness): the sample run satisfies the bounds and label membership. -/
theorem enrichment_confidence_bounds_witness :
    process_ticket sampleOracle sampleRawJson = Except.ok t0 ∧
    (0 ≤ t0.enrichment.intent_confidence ∧ t0.enrichment.intent_confidence ≤ 1 ∧
     0 ≤ t0.enrichment.urgency_confidence ∧ t0.enrichment.urgency_confidence ≤ 1 ∧
     0 ≤ t0.enrichment.sentiment_confidence ∧ t0.enrichment.sentiment_confidence ≤ 1 ∧
     (t0.enrichment.urgency = "critical" ∨ t0.enrichment.urgency = "high" ∨
      t0.enrichment.urgency = "medium" ∨ t0.enrichment.urgency = "low")) :=
  ⟨rfl, enrichment_confidence_bounds_and_urgency_labels sampleOracle sampleRawJson t0 rfl⟩

/-- C10 (counterexample): the claim says a ticket whose subject and body are
both whitespace-only gets the 384-dim zero vector with no model call.  With
subject and body both a single space, the combined text is subject-dot-body,
which strips to a period: the embedding model is invoked and its answer (here
a 1-element vector) is returned unchanged. -/
theorem whitespace_ticket_invokes_model_cex :
    generate_ticket_embedding sampleOracle
        (Json.obj [("subject", Json.str " "), ("body", Json.str " ")]) =
      Except.ok [5] ∧
    ¬ generate_ticket_embedding sampleOracle
        (Json.obj [("subject", Json.str " "), ("body", Json.str " ")]) =
      Except.ok (List.replicate 384 (0 : ℚ)) := by
  refine ⟨rfl, ?_⟩
  intro h
  rw [show generate_ticket_embedding sampleOracle
      (Json.obj [("subject", Json.str " "), ("body", Json.str " ")]) =
      Except.ok [(5 : ℚ)] from rfl] at h
  injection h with h
  have := congrArg List.length h
  rw [List.length_replicate] at this
  simp at this

/-- C10 (amended): `generate_ticket_embedding` returns the 384-dim zero
vector independently of the embedding model exactly when the Python-combined
text is whitespace-only; both-empty qualifies, but two non-empty
whitespace-only strings do not, because the combining step inserts a
period. -/
theorem zero_embedding_iff_blank_combined_text (tkt : Json) :
    (∀ o : Oracles, generate_ticket_embedding o tkt =
        Except.ok (List.replicate 384 0)) ↔
      (∃ txt, embedText tkt = Except.ok txt ∧ pyStrip txt = "") := by
  constructor
  · intro h
    cases he : embedText tkt with
    | error e =>
      have hfail := h failingOracle
      unfold generate_ticket_embedding at hfail
      rw [he] at hfail
      cases hfail
    | ok txt =>
      by_cases hb : pyStrip txt = ""
      · exact ⟨txt, rfl, hb⟩
      · exfalso
        have hfail := h failingOracle
        unfold generate_ticket_embedding at hfail
        rw [he] at hfail
        replace hfail : (if pyStrip txt = ""
            then (Except.ok (List.replicate 384 (0 : ℚ)) : Except UnitError (List ℚ))
            else match failingOracle.encode txt with
              | some v => Except.ok v
              | none => Except.error UnitError.enrichment) =
            Except.ok (List.replicate 384 0) := hfail
        rw [if_neg hb] at hfail
        cases hfail
  · rintro ⟨txt, he, hb⟩ o
    unfold generate_ticket_embedding
    rw [he]
    show (if pyStrip txt = ""
        then (Except.ok (List.replicate 384 (0 : ℚ)) : Except UnitError (List ℚ))
        else match o.encode txt with
          | some v => Except.ok v
          | none => Except.error UnitError.enrichment) =
        Except.ok (List.replicate 384 0)
    rw [if_pos hb]

end TicketWorker
